import Mathlib

/-!
Verification of the s3-upload-action uploader (`src/main.js`) against its
natural-language specification.

The JavaScript program is shallowly embedded: JS strings are Lean `String`
(lists of characters), `parseInt`, `trim`, `split`, `replace` and the other
string primitives the program uses are re-implemented below following ECMA
semantics for the cases the program exercises, and the effectful run
(`putObject`, `getSignedUrl`, QR file generation, `setOutput`) is modelled as
a pure function from the action inputs and an environment (file contents,
success or failure of each external call, the sampled random directory name)
to a result, a trace of external effects, and the final existence of the
temporary QR file.
-/

/-! ### Character-level string primitives (ECMA semantics) -/

/-- Splits a character list on a separator character, ECMA
`String.prototype.split` with a single-character separator: `""` splits to
`[""]`, separators at the ends produce empty components. -/
def chSplit (sep : Char) : List Char → List (List Char)
  | [] => [[]]
  | c :: rest =>
    if c = sep then [] :: chSplit sep rest
    else
      match chSplit sep rest with
      | [] => [[c]]
      | h :: t => (c :: h) :: t

/-- JS `String.prototype.split` with a one-character separator. -/
def jsSplit (sep : Char) (s : String) : List String :=
  (chSplit sep s.data).map fun l => String.mk l

/-- JS `String.prototype.trim`: drop leading and trailing whitespace. -/
def jsTrim (s : String) : String :=
  String.mk (((s.data.dropWhile Char.isWhitespace).reverse.dropWhile
    Char.isWhitespace).reverse)

/-- Node `path.basename`: drop trailing slashes, then keep the part after the
last remaining slash. -/
def jsBasename (p : String) : String :=
  String.mk (((p.data.reverse.dropWhile fun c => c == '/').takeWhile
    fun c => !(c == '/')).reverse)

def isDecDigit (c : Char) : Bool := decide ('0' ≤ c ∧ c ≤ '9')

def isHexDigit (c : Char) : Bool :=
  decide (('0' ≤ c ∧ c ≤ '9') ∨ ('a' ≤ c ∧ c ≤ 'f') ∨ ('A' ≤ c ∧ c ≤ 'F'))

def hexVal (c : Char) : Nat :=
  if '0' ≤ c ∧ c ≤ '9' then c.toNat - 48
  else if 'a' ≤ c ∧ c ≤ 'f' then c.toNat - 87
  else c.toNat - 55

/-- Parses the longest prefix of digits of the given base; `none` when there
is no digit at all (JS `NaN`). -/
def parseDigits (base : Nat) (isDigit : Char → Bool) (val : Char → Nat)
    (cs : List Char) : Option Nat :=
  let ds := cs.takeWhile isDigit
  if ds = [] then none
  else some (ds.foldl (fun a c => a * base + val c) 0)

/-- JS `parseInt(s)` with no radix argument: leading whitespace is skipped,
an optional sign is read, a `0x`/`0X` prefix selects base 16, the longest
digit prefix is converted, and the absence of digits gives `NaN` (`none`). -/
def jsParseInt (s : String) : Option Int :=
  let cs := s.data.dropWhile Char.isWhitespace
  let sign : Int := match cs with | '-' :: _ => -1 | _ => 1
  let cs2 := match cs with | '-' :: r => r | '+' :: r => r | _ => cs
  let body : Option Nat :=
    match cs2 with
    | '0' :: x :: r =>
      if x = 'x' ∨ x = 'X' then parseDigits 16 isHexDigit hexVal r
      else parseDigits 10 isDecDigit (fun c => c.toNat - 48) cs2
    | _ => parseDigits 10 isDecDigit (fun c => c.toNat - 48) cs2
  body.map fun n => sign * (n : Int)

/-! ### JS `String.prototype.replace` with a string pattern -/

/-- Index of the first occurrence of `pat` in `s` (JS `String.indexOf`),
`none` when `pat` does not occur. -/
def firstMatch (s pat : List Char) : Option Nat :=
  if pat.isPrefixOf s then some 0
  else
    match s with
    | [] => none
    | _ :: t => (firstMatch t pat).map (· + 1)

/-- ECMA `GetSubstitution` for a string search value (no capture groups):
`$$` is a literal dollar, `$&` the matched substring, a dollar followed by a
backquote the part before the match, a dollar followed by a single quote the
part after the match; everything else, including `$` before any other
character, is kept literally. -/
def getSubstitution (repl matched before after : List Char) : List Char :=
  match repl with
  | [] => []
  | c :: rest =>
    if c = '$' then
      match rest with
      | [] => ['$']
      | d :: r2 =>
        if d = '$' then '$' :: getSubstitution r2 matched before after
        else if d = '&' then matched ++ getSubstitution r2 matched before after
        else if d = Char.ofNat 96 then
          before ++ getSubstitution r2 matched before after
        else if d = Char.ofNat 39 then
          after ++ getSubstitution r2 matched before after
        else '$' :: d :: getSubstitution r2 matched before after
    else c :: getSubstitution rest matched before after

/-- JS `s.replace(pat, repl)` with string arguments: replaces the first
occurrence of `pat`, expanding `$`-patterns in `repl`; returns `s` unchanged
when `pat` does not occur. -/
def jsReplace (s pat repl : String) : String :=
  match firstMatch s.data pat.data with
  | none => s
  | some i =>
    String.mk (s.data.take i ++
      getSubstitution repl.data pat.data (s.data.take i)
        (s.data.drop (i + pat.data.length)) ++
      s.data.drop (i + pat.data.length))

/-- Plain literal first-occurrence substring replacement. This is the
spec's words — "rewrite the URL by replacing the literal substring … with
`<alternativeDomain>/`" — for comparison with the `jsReplace` the code
performs. -/
def plainReplaceFirst (s pat repl : String) : String :=
  match firstMatch s.data pat.data with
  | none => s
  | some i =>
    String.mk (s.data.take i ++ repl.data ++ s.data.drop (i + pat.data.length))

/-! ### Random directory generation (`getRandomStr`, main.js lines 235-242) -/

/-- The exact alphabet string `c` of `getRandomStr` in the source. -/
def randomChars : String :=
  "abcdefghijklmnopqrstuvwxyzABCDEFGHJKLMNOPQRSTUVWXYZ0123456789"

/-- Index computed by `Math.floor(Math.random() * c.length)` for one
`Math.random()` output `q`. -/
def randomIndex (q : ℚ) : Nat :=
  (⌊q * (randomChars.data.length : ℚ)⌋).toNat

/-- `getRandomStr(length)`: one character of `randomChars` per draw of the
random source `rand` (the successive `Math.random()` outputs). -/
def getRandomStr (length : Nat) (rand : Nat → ℚ) : String :=
  String.mk ((List.range length).map fun i =>
    randomChars.data.getD (randomIndex (rand i)) 'a')

/-! ### Input normalization (main.js lines 74-108) -/

/-- Normalization of `bucket-root` (lines 84-94): a truthy (non-empty) value
loses one leading slash and gains a trailing slash when still non-empty and
not already slash-terminated; an empty value defaults to `"artifacts/"`. -/
def normalizeBucketRoot (s : String) : String :=
  if s ≠ "" then
    let s1 := if s.data.headD ' ' = '/' then String.mk (s.data.drop 1) else s
    if s1 ≠ "" ∧ ¬(s1.data.getLastD ' ' = '/') then s1 ++ "/" else s1
  else "artifacts/"

/-- Normalization of `destination-dir` (lines 96-106); `randStr` is the
`getRandomStr(32)` sample used when the input is empty. -/
def normalizeDestinationDir (s : String) (randStr : String) : String :=
  if s ≠ "" then
    let s1 := if s.data.headD ' ' = '/' then String.mk (s.data.drop 1) else s
    if s1 ≠ "" ∧ ¬(s1.data.getLastD ' ' = '/') then s1 ++ "/" else s1
  else randStr ++ "/"

/-! ### Tag parsing (main.js lines 117-128) and serialization (line 140) -/

structure Tag where
  Key : String
  Value : String
deriving DecidableEq

/-- Lines 119-128: split the tag string on commas, trim each pair, discard
falsy (empty) pairs, then destructure `pair.split('=')` into its first two
components (`Value` falls back to the empty string), trimming both. -/
def parseTags (s : String) : List Tag :=
  (((jsSplit ',' s).map jsTrim).filter fun p => p ≠ "").map fun pair =>
    let parts := jsSplit '=' pair
    { Key := jsTrim (parts.headD ""), Value := jsTrim (parts.getD 1 "") }

/-- Line 140: `tagging.map(t => Key=Value).join('&')`. -/
def serializeTags (ts : List Tag) : String :=
  String.intercalate "&" (ts.map fun t => t.Key ++ "=" ++ t.Value)

/-! ### Checksum handling (main.js lines 143-176) -/

def checksumAlgorithms : List String :=
  ["CRC32", "CRC32C", "CRC64NVME", "SHA1", "SHA256"]

/-- The regular expression test of line 154: nonempty and all characters
hexadecimal. -/
def isHexTest (s : String) : Bool := !s.data.isEmpty && s.data.all isHexDigit

/-- Node `Buffer.from(str, 'hex')`: consecutive digit pairs become bytes; a
trailing lone digit is dropped. -/
def hexToBytes : List Char → List Nat
  | a :: b :: r => (16 * hexVal a + hexVal b) :: hexToBytes r
  | _ => []

def base64Alphabet : String :=
  "ABCDEFGHIJKLMNOPQRSTUVWXYZabcdefghijklmnopqrstuvwxyz0123456789+/"

def b64Char (n : Nat) : Char := base64Alphabet.data.getD n 'A'

/-- Node `buffer.toString('base64')`: standard base64 with `=` padding. -/
def base64Encode : List Nat → List Char
  | [] => []
  | [a] => [b64Char (a / 4), b64Char (a % 4 * 16), '=', '=']
  | [a, b] => [b64Char (a / 4), b64Char (a % 4 * 16 + b / 16),
      b64Char (b % 16 * 4), '=']
  | a :: b :: c :: r =>
    b64Char (a / 4) :: b64Char (a % 4 * 16 + b / 16) ::
      b64Char (b % 16 * 4 + c / 64) :: b64Char (c % 64) :: base64Encode r

/-- Lines 152-157: a checksum value matching the hex pattern is decoded as
hex bytes and re-encoded as base64; any other value is passed through. -/
def convertChecksum (v : String) : String :=
  if isHexTest v then String.mk (base64Encode (hexToBytes v.data)) else v

/-! ### Data model of one invocation -/

/-- The action inputs read in `src/main.js` lines 17-62, all strings.
The credential inputs do not influence the modelled behavior and are
omitted. The `public` input is named `publicFlag` because `public` cannot be
a Lean field name. -/
structure Input where
  awsBucket : String
  awsRegion : String
  filePath : String
  destinationDir : String
  bucketRoot : String
  outputFileUrl : String
  contentType : String
  contentDisposition : String
  outputQrUrl : String
  qrWidth : String
  publicFlag : String
  expire : String
  alternativeDomainPublic : String
  alternativeDomainPrivate : String
  tags : String
  checksumAlgorithm : String
  checksum : String

/-- Environment of one run: the content the source file reads as
(`fs.readFileSync(input.filePath)`, modelled as always readable), the
`getRandomStr(32)` sample, and the outcome of each external call — `none`
means the call succeeds, `some m` means it throws an error with message `m`.
`signedUrl` is the (opaque) URL `getSignedUrl` resolves with, and `qrBody`
the bytes of the QR image file the `qrcode` library writes. -/
structure Env where
  fileBody : String := ""
  randStr : String := ""
  mainPutErr : Option String := none
  signErr : Option String := none
  signedUrl : String := ""
  qrToFileErr : Option String := none
  qrBody : String := ""
  qrPutErr : Option String := none

/-- Parameters of an `s3.putObject` call. The main upload (lines 130-176)
always carries `ContentDisposition` and may carry tagging and checksum
fields; the QR upload (lines 210-216) carries neither. -/
structure PutParams where
  Bucket : String
  Key : String
  ContentType : String
  ContentDisposition : Option String := none
  Body : String
  ACL : String
  Tagging : Option String := none
  ChecksumAlgorithm : Option String := none
  ChecksumCRC32 : Option String := none
  ChecksumCRC32C : Option String := none
  ChecksumCRC64NVME : Option String := none
  ChecksumSHA1 : Option String := none
  ChecksumSHA256 : Option String := none
deriving DecidableEq

/-- Observable external effects of a run, in order. -/
inductive Effect where
  | putObject (params : PutParams)
  | signUrl (bucket key : String) (expiresIn : Int)
  | qrToFile (path url : String) (width : Int)
  | unlink (path : String)
  | setOutput (name value : String)
deriving DecidableEq

/-- Result of a run: the thrown error or success, the effect trace, and
whether the temporary QR file exists on disk afterwards (it does not exist
before the run). -/
structure RunOutcome where
  result : Except String Unit
  trace : List Effect
  tmpExists : Bool

def expireErrMsg : String :=
  "\"expire\" input should be a number between 0 and 604800."

def qrWidthErrMsg : String :=
  "\"qr-width\" input should be a number between 100 and 1000."

def tmpQrFile : String := "./s3-upload-action-qr.png"

/-! ### The upload parameters (main.js lines 117-176) -/

/-- Attaches the converted checksum value under the field selected by the
`switch` of lines 158-174. -/
def attachChecksum (p : PutParams) (alg cv : String) : PutParams :=
  if alg = "CRC32" then { p with ChecksumCRC32 := some cv }
  else if alg = "CRC32C" then { p with ChecksumCRC32C := some cv }
  else if alg = "CRC64NVME" then { p with ChecksumCRC64NVME := some cv }
  else if alg = "SHA1" then { p with ChecksumSHA1 := some cv }
  else if alg = "SHA256" then { p with ChecksumSHA256 := some cv }
  else p

/-- Lines 117-176: tag parsing and serialization, the base `params` object,
and the checksum block, which rejects an unsupported non-empty algorithm and
otherwise attaches the algorithm and (when a value is supplied) the
converted checksum value. -/
def buildParams (input : Input) (fileKey acl body : String) :
    Except String PutParams :=
  let tagging : Option (List Tag) :=
    if input.tags ≠ "" then some (parseTags input.tags) else none
  let p : PutParams := {
    Bucket := input.awsBucket
    Key := fileKey
    ContentType := input.contentType
    ContentDisposition :=
      some (if input.contentDisposition ≠ "" then input.contentDisposition
            else "inline")
    Body := body
    ACL := acl
    Tagging := tagging.map serializeTags }
  if input.checksumAlgorithm ≠ "" then
    if ¬(checksumAlgorithms.contains input.checksumAlgorithm) then
      Except.error ("Unsupported checksum algorithm: " ++
        input.checksumAlgorithm)
    else
      let p2 := { p with ChecksumAlgorithm := some input.checksumAlgorithm }
      if input.checksum ≠ "" then
        Except.ok (attachChecksum p2 input.checksumAlgorithm
          (convertChecksum input.checksum))
      else Except.ok p2
  else Except.ok p

/-! ### URL resolution (main.js lines 180-201) -/

/-- The virtual-hosted-style host `bucket.s3.region.amazonaws.com`. -/
def s3Host (bucket region : String) : String :=
  bucket ++ ".s3." ++ region ++ ".amazonaws.com"

/-- Line 183: the public static URL. -/
def publicFileUrl (bucket region key : String) : String :=
  "https://" ++ s3Host bucket region ++ "/" ++ key

/-- Lines 184-186 (and 194-196, 220-222): when the alternative domain input
is truthy, `url.replace(bucket.s3.region.amazonaws.com/bucketRoot,
altDomain/)`. -/
def rewriteUrl (url bucket region bucketRoot altDomain : String) : String :=
  if altDomain ≠ "" then
    jsReplace url (s3Host bucket region ++ "/" ++ bucketRoot)
      (altDomain ++ "/")
  else url

/-- Lines 182-197: the public branch computes the static URL and rewrites it
against the public alternative domain; the private branch asks for a signed
URL (an effect that can fail) and rewrites it against the private
alternative domain. Returns the resolved URL and the effects performed. -/
def resolveFileUrl (input : Input) (env : Env)
    (bucketRoot fileKey : String) (expire : Int) :
    Except String String × List Effect :=
  if input.publicFlag = "true" then
    (Except.ok (rewriteUrl (publicFileUrl input.awsBucket input.awsRegion
        fileKey) input.awsBucket input.awsRegion bucketRoot
        input.alternativeDomainPublic), [])
  else
    match env.signErr with
    | some e => (Except.error e,
        [Effect.signUrl input.awsBucket fileKey expire])
    | none => (Except.ok (rewriteUrl env.signedUrl input.awsBucket
        input.awsRegion bucketRoot input.alternativeDomainPrivate),
        [Effect.signUrl input.awsBucket fileKey expire])

/-! ### QR step (main.js lines 205-223) -/

/-- Lines 205-223: write the QR image of `fileUrl` to the fixed temporary
path, upload it under `<bucketRoot><destinationDir>qr.png` with content type
`image/png` and ACL `public-read`, delete the temporary file, then rewrite
and output the QR URL (always against the public alternative domain). The
temporary file exists from a successful `qr.toFile` until `fs.unlinkSync`;
a failing `qr.toFile` is modelled as not having created the file. -/
def qrStep (input : Input) (env : Env) (bucketRoot destinationDir : String)
    (qrWidth : Int) (fileUrl : String) (trace : List Effect) : RunOutcome :=
  let qrKey := bucketRoot ++ destinationDir ++ "qr.png"
  let trace1 := trace ++ [Effect.qrToFile tmpQrFile fileUrl qrWidth]
  match env.qrToFileErr with
  | some e => ⟨Except.error e, trace1, false⟩
  | none =>
    let qrParams : PutParams := {
      Bucket := input.awsBucket
      Key := qrKey
      ContentType := "image/png"
      Body := env.qrBody
      ACL := "public-read" }
    let trace2 := trace1 ++ [Effect.putObject qrParams]
    match env.qrPutErr with
    | some e => ⟨Except.error e, trace2, true⟩
    | none =>
      let trace3 := trace2 ++ [Effect.unlink tmpQrFile]
      let qrUrl := rewriteUrl (publicFileUrl input.awsBucket input.awsRegion
        qrKey) input.awsBucket input.awsRegion bucketRoot
        input.alternativeDomainPublic
      ⟨Except.ok (), trace3 ++ [Effect.setOutput "qr-url" qrUrl], false⟩

/-! ### The whole run (main.js lines 72-224) -/

/-- The `run` function: `expire` and `qr-width` validation (lines 74-82,
with `isNaN`/`!qrWidth` modelled as the `none`/zero cases of `jsParseInt`),
path normalization, key derivation, ACL selection, upload parameter
construction, the main `putObject`, URL resolution and output, and the QR
step. -/
def run (input : Input) (env : Env) : RunOutcome :=
  match jsParseInt input.expire with
  | none => ⟨Except.error expireErrMsg, [], false⟩
  | some expire =>
    if expire < 0 ∨ 604800 < expire then
      ⟨Except.error expireErrMsg, [], false⟩
    else
      match jsParseInt input.qrWidth with
      | none => ⟨Except.error qrWidthErrMsg, [], false⟩
      | some qrWidth =>
        if qrWidth = 0 ∨ qrWidth < 100 ∨ 1000 < qrWidth then
          ⟨Except.error qrWidthErrMsg, [], false⟩
        else
          let bucketRoot := normalizeBucketRoot input.bucketRoot
          let destinationDir :=
            normalizeDestinationDir input.destinationDir env.randStr
          let fileKey := bucketRoot ++ destinationDir ++
            jsBasename input.filePath
          let acl := if input.publicFlag = "true" then "public-read"
            else "private"
          match buildParams input fileKey acl env.fileBody with
          | Except.error e => ⟨Except.error e, [], false⟩
          | Except.ok params =>
            match env.mainPutErr with
            | some e => ⟨Except.error e, [Effect.putObject params], false⟩
            | none =>
              if input.outputFileUrl = "true" ∨ input.outputQrUrl = "true"
              then
                match resolveFileUrl input env bucketRoot fileKey expire with
                | (Except.error e, effs) =>
                  ⟨Except.error e, Effect.putObject params :: effs, false⟩
                | (Except.ok fileUrl, effs) =>
                  let base := Effect.putObject params :: effs ++
                    (if input.outputFileUrl = "true" then
                      [Effect.setOutput "file-url" fileUrl] else [])
                  if input.outputQrUrl = "true" then
                    qrStep input env bucketRoot destinationDir qrWidth
                      fileUrl base
                  else ⟨Except.ok (), base, false⟩
              else ⟨Except.ok (), [Effect.putObject params], false⟩

/-! ### Spec-side validity predicates (used to state hypotheses) -/

/-- Whether `expire` parses as an integer in `[0, 604800]` (the spec's
validity condition). -/
def expireOk (s : String) : Bool :=
  match jsParseInt s with
  | none => false
  | some e => decide (0 ≤ e ∧ e ≤ 604800)

/-- Whether `qr-width` parses as a non-zero integer in `[100, 1000]` (the
spec's validity condition). -/
def qrWidthOk (s : String) : Bool :=
  match jsParseInt s with
  | none => false
  | some w => decide (w ≠ 0 ∧ 100 ≤ w ∧ w ≤ 1000)

/-- Whether the `checksum-algorithm` input is acceptable: empty or a member
of the supported set. -/
def checksumAlgOk (s : String) : Bool :=
  s == "" || checksumAlgorithms.contains s

/-- The spec's "field name matching the chosen algorithm": the checksum
field of an upload-parameter record selected by algorithm name. -/
def checksumFieldValue (alg : String) (p : PutParams) : Option String :=
  if alg = "CRC32" then p.ChecksumCRC32
  else if alg = "CRC32C" then p.ChecksumCRC32C
  else if alg = "CRC64NVME" then p.ChecksumCRC64NVME
  else if alg = "SHA1" then p.ChecksumSHA1
  else if alg = "SHA256" then p.ChecksumSHA256
  else none

/-! ### Helper lemmas -/

theorem getD_mem {α : Type} (l : List α) (n : Nat) (d : α)
    (h : n < l.length) : l.getD n d ∈ l := by
  induction l generalizing n with
  | nil => simp at h
  | cons a t ih =>
    cases n with
    | zero => simp [List.getD]
    | succ m =>
      simp only [List.length_cons, Nat.succ_lt_succ_iff] at h
      simp only [List.getD_cons_succ]
      exact List.mem_cons_of_mem a (ih m h)

theorem randomIndex_lt (q : ℚ) (h1 : q < 1) :
    randomIndex q < randomChars.data.length := by
  have hlen : randomChars.data.length = 61 := by decide
  unfold randomIndex
  rw [hlen]
  have hf : ⌊q * ((61 : ℕ) : ℚ)⌋ < (61 : ℤ) := by
    rw [Int.floor_lt]
    push_cast
    nlinarith
  omega

theorem chSplit_ne_nil (sep : Char) (l : List Char) : chSplit sep l ≠ [] := by
  cases l with
  | nil => simp [chSplit]
  | cons c t =>
    simp only [chSplit]
    split
    · simp
    · rcases h : chSplit sep t with _ | ⟨h1, t1⟩ <;> simp

theorem chSplit_head (sep : Char) (l : List Char) :
    ∃ t, chSplit sep l = (l.takeWhile fun c => !(c == sep)) :: t := by
  induction l with
  | nil => exact ⟨[], rfl⟩
  | cons c r ih =>
    by_cases hc : c = sep
    · refine ⟨chSplit sep r, ?_⟩
      simp [chSplit, hc, List.takeWhile]
    · obtain ⟨t, ht⟩ := ih
      refine ⟨t, ?_⟩
      have hb : (c == sep) = false := by simp [hc]
      simp only [chSplit, if_neg hc, ht]
      simp [List.takeWhile, hb]

theorem chSplit_getD1 (sep : Char) (l : List Char) :
    (chSplit sep l).getD 1 [] =
      ((l.dropWhile fun c => !(c == sep)).drop 1).takeWhile
        fun c => !(c == sep) := by
  induction l with
  | nil => rfl
  | cons c r ih =>
    by_cases hc : c = sep
    · obtain ⟨t, ht⟩ := chSplit_head sep r
      simp [chSplit, hc, ht, List.dropWhile]
    · obtain ⟨t, ht⟩ := chSplit_head sep r
      simp only [chSplit, if_neg hc, ht]
      rw [ht] at ih
      simp only [List.getD_cons_succ, List.getD_cons_zero] at ih ⊢
      rw [ih]
      have hb : (c == sep) = false := by simp [hc]
      simp [List.dropWhile, hb]

theorem jsSplit_headD (sep : Char) (s : String) :
    (jsSplit sep s).headD "" =
      String.mk (s.data.takeWhile fun c => !(c == sep)) := by
  obtain ⟨t, ht⟩ := chSplit_head sep s.data
  simp [jsSplit, ht]

theorem getD1_map_mk (t : List (List Char)) :
    (t.map fun l => String.mk l).getD 1 "" = String.mk (t.getD 1 []) := by
  rcases t with _ | ⟨a, _ | ⟨b, u⟩⟩ <;> rfl

theorem jsSplit_getD1 (sep : Char) (s : String) :
    (jsSplit sep s).getD 1 "" =
      String.mk (((s.data.dropWhile fun c => !(c == sep)).drop 1).takeWhile
        fun c => !(c == sep)) := by
  rw [jsSplit, getD1_map_mk, chSplit_getD1]

theorem getSubstitution_no_dollar (repl matched before after : List Char)
    (h : '$' ∉ repl) : getSubstitution repl matched before after = repl := by
  induction repl with
  | nil => rfl
  | cons c rest ih =>
    have hc : ¬ c = '$' := fun hc => h (hc ▸ List.mem_cons_self c rest)
    have hrest : '$' ∉ rest := fun hr => h (List.mem_cons_of_mem c hr)
    unfold getSubstitution
    rw [if_neg hc, ih hrest]

theorem run_expire_invalid (input : Input) (env : Env)
    (h : expireOk input.expire = false) :
    run input env = ⟨Except.error expireErrMsg, [], false⟩ := by
  unfold expireOk at h
  unfold run
  cases hp : jsParseInt input.expire with
  | none => rfl
  | some e =>
    rw [hp] at h
    simp only [decide_eq_false_iff_not] at h
    dsimp only
    rw [if_pos (by omega)]

theorem run_qrwidth_invalid (input : Input) (env : Env)
    (hE : expireOk input.expire = true)
    (h : qrWidthOk input.qrWidth = false) :
    run input env = ⟨Except.error qrWidthErrMsg, [], false⟩ := by
  unfold expireOk at hE
  unfold qrWidthOk at h
  unfold run
  cases hpe : jsParseInt input.expire with
  | none => rw [hpe] at hE; exact absurd hE (by simp)
  | some e =>
    rw [hpe] at hE
    simp only [decide_eq_true_eq] at hE
    dsimp only
    rw [if_neg (by omega)]
    cases hpw : jsParseInt input.qrWidth with
    | none => rfl
    | some w =>
      rw [hpw] at h
      simp only [decide_eq_false_iff_not] at h
      dsimp only
      rw [if_pos (by omega)]

theorem buildParams_checksum_invalid (input : Input)
    (fileKey acl body : String)
    (h : checksumAlgOk input.checksumAlgorithm = false) :
    buildParams input fileKey acl body =
      Except.error ("Unsupported checksum algorithm: " ++
        input.checksumAlgorithm) := by
  unfold checksumAlgOk at h
  simp only [Bool.or_eq_false_iff, beq_eq_false_iff_ne] at h
  obtain ⟨h1, h2⟩ := h
  simp only [buildParams]
  rw [if_pos h1, if_pos (by rw [h2]; simp)]

theorem run_checksum_invalid (input : Input) (env : Env)
    (hE : expireOk input.expire = true)
    (hW : qrWidthOk input.qrWidth = true)
    (h : checksumAlgOk input.checksumAlgorithm = false) :
    run input env = ⟨Except.error ("Unsupported checksum algorithm: " ++
      input.checksumAlgorithm), [], false⟩ := by
  unfold expireOk at hE
  unfold qrWidthOk at hW
  unfold run
  cases hpe : jsParseInt input.expire with
  | none => rw [hpe] at hE; exact absurd hE (by simp)
  | some e =>
    rw [hpe] at hE
    simp only [decide_eq_true_eq] at hE
    dsimp only
    rw [if_neg (by omega)]
    cases hpw : jsParseInt input.qrWidth with
    | none => rw [hpw] at hW; exact absurd hW (by simp)
    | some w =>
      rw [hpw] at hW
      simp only [decide_eq_true_eq] at hW
      dsimp only
      rw [if_neg (by omega)]
      rw [buildParams_checksum_invalid input _ _ _ h]

theorem buildParams_ok_of_algOk (input : Input) (fileKey acl body : String)
    (h : checksumAlgOk input.checksumAlgorithm = true) :
    ∃ p, buildParams input fileKey acl body = Except.ok p := by
  unfold checksumAlgOk at h
  simp only [Bool.or_eq_true, beq_iff_eq] at h
  simp only [buildParams]
  by_cases halg : input.checksumAlgorithm = ""
  · rw [if_neg (by simp [halg])]
    exact ⟨_, rfl⟩
  · have hcont : checksumAlgorithms.contains input.checksumAlgorithm = true
        := by
      rcases h with h | h
      · exact absurd h halg
      · exact h
    rw [if_pos halg, if_neg (by rw [hcont]; simp)]
    by_cases hv : input.checksum ≠ ""
    · rw [if_pos hv]
      exact ⟨_, rfl⟩
    · rw [if_neg hv]
      exact ⟨_, rfl⟩

theorem qrStep_put_mem (input : Input) (env : Env)
    (bucketRoot destinationDir : String) (qrWidth : Int) (fileUrl : String)
    (trace : List Effect) (hfile : env.qrToFileErr = none) :
    Effect.putObject {
      Bucket := input.awsBucket
      Key := bucketRoot ++ destinationDir ++ "qr.png"
      ContentType := "image/png"
      Body := env.qrBody
      ACL := "public-read" } ∈
    (qrStep input env bucketRoot destinationDir qrWidth fileUrl trace).trace
    := by
  unfold qrStep
  rw [hfile]
  cases hp : env.qrPutErr <;> simp

/-! ### Claim C1 — tag parsing -/

/-- C1, counterexample: the claim says the value of a pair is the entire
remainder after the first `=`; but `const [Key, Value] = pair.split('=')`
keeps only the second `split` component, so `"A=1=2"` parses to
`[{A, "1"}]`, not `[{A, "1=2"}]`. -/
theorem C1_counterexample :
    parseTags "A=1=2" = [⟨"A", "1"⟩] ∧
    ¬ parseTags "A=1=2" = [⟨"A", "1=2"⟩] := by
  decide

/-- C1, amended: for every tag string the parser splits on commas, trims
each pair, discards pairs that trim to empty, and for every remaining pair
the key is the trimmed substring before the first `=` and the value is the
trimmed segment strictly between the first and the second `=` (empty when
there is no `=`; anything after a second `=` is dropped); in particular
`"A=1, B=2,,C="` parses to `[{A,1},{B,2},{C,""}]`. -/
theorem C1_tag_value_amended (s : String) :
    (parseTags s =
      (((jsSplit ',' s).map jsTrim).filter fun p => p ≠ "").map fun pair =>
        { Key := jsTrim (String.mk (pair.data.takeWhile fun c => !(c == '=')))
          Value := jsTrim (String.mk
            (((pair.data.dropWhile fun c => !(c == '=')).drop 1).takeWhile
              fun c => !(c == '='))) }) ∧
    parseTags "A=1, B=2,,C=" = [⟨"A", "1"⟩, ⟨"B", "2"⟩, ⟨"C", ""⟩] := by
  constructor
  · unfold parseTags
    congr 1
    funext pair
    simp only [jsSplit_headD, jsSplit_getD1]
  · decide

/-! ### Claim C3 — random destination directory -/

/-- C3, counterexample: the claim says the characters are drawn from a fixed
60-character alphabet, but the alphabet `c` in `getRandomStr` holds 61
distinct characters (only uppercase `I` is missing). -/
theorem C3_counterexample :
    randomChars.data.length = 61 ∧ ¬ randomChars.data.length = 60 ∧
    randomChars.data.Nodup := by
  decide

/-- C3, amended: for every run with empty `destination-dir` the generated
directory is `getRandomStr 32` plus a trailing slash, a 32-character string
each of whose characters is drawn from the fixed 61-character alphabet. -/
theorem C3_random_dir_amended (rand : Nat → ℚ)
    (h : ∀ i, 0 ≤ rand i ∧ rand i < 1) :
    (getRandomStr 32 rand).data.length = 32 ∧
    (∀ c ∈ (getRandomStr 32 rand).data, c ∈ randomChars.data) ∧
    randomChars.data.length = 61 ∧
    normalizeDestinationDir "" (getRandomStr 32 rand) =
      getRandomStr 32 rand ++ "/" := by
  refine ⟨?_, ?_, by decide, ?_⟩
  · simp [getRandomStr]
  · intro c hc
    simp only [getRandomStr, List.mem_map, List.mem_range] at hc
    obtain ⟨i, _, rfl⟩ := hc
    exact getD_mem _ _ _ (randomIndex_lt (rand i) (h i).2)
  · rfl

/-- C3, witness for the amended theorem at the constant random source 0. -/
theorem C3_random_dir_amended_witness :
    (getRandomStr 32 (fun _ => (0 : ℚ))).data.length = 32 ∧
    (∀ c ∈ (getRandomStr 32 (fun _ => (0 : ℚ))).data,
      c ∈ randomChars.data) ∧
    randomChars.data.length = 61 ∧
    normalizeDestinationDir "" (getRandomStr 32 (fun _ => (0 : ℚ))) =
      getRandomStr 32 (fun _ => (0 : ℚ)) ++ "/" :=
  C3_random_dir_amended (fun _ => 0) (fun _ => by norm_num)

/-! ### Claim C5 — alternative-domain URL rewrite -/

/-- C5, counterexample: the rewrite is JS `String.replace`, which expands
`$`-patterns in the replacement string; with alternative domain `"$&"` the
result differs from replacing the literal substring with `"$&/"`. -/
theorem C5_counterexample :
    rewriteUrl "https://b.s3.r.amazonaws.com/artifacts/f.txt" "b" "r"
        "artifacts/" "$&" =
      "https://b.s3.r.amazonaws.com/artifacts//f.txt" ∧
    plainReplaceFirst "https://b.s3.r.amazonaws.com/artifacts/f.txt"
        (s3Host "b" "r" ++ "/" ++ "artifacts/") ("$&" ++ "/") =
      "https://$&/f.txt" ∧
    rewriteUrl "https://b.s3.r.amazonaws.com/artifacts/f.txt" "b" "r"
        "artifacts/" "$&" ≠
      plainReplaceFirst "https://b.s3.r.amazonaws.com/artifacts/f.txt"
        (s3Host "b" "r" ++ "/" ++ "artifacts/") ("$&" ++ "/") := by
  refine ⟨by decide, by decide, by decide⟩

/-- C5, amended: for every URL and non-empty matching alternative domain
containing no `$` character, the rewrite replaces the first occurrence of
the literal substring `<bucket>.s3.<region>.amazonaws.com/<bucketRoot>`
with `<alternativeDomain>/` (a domain containing `$` is expanded per JS
`String.replace`); when the URL does not contain that exact substring the
URL is returned unmodified. -/
theorem C5_rewrite_amended (url bucket region bucketRoot altDomain : String)
    (hne : altDomain ≠ "") (hd : '$' ∉ altDomain.data) :
    rewriteUrl url bucket region bucketRoot altDomain =
      plainReplaceFirst url (s3Host bucket region ++ "/" ++ bucketRoot)
        (altDomain ++ "/") ∧
    (firstMatch url.data (s3Host bucket region ++ "/" ++ bucketRoot).data =
        none →
      rewriteUrl url bucket region bucketRoot altDomain = url) := by
  have hd2 : '$' ∉ (altDomain ++ "/").data := by
    intro hmem
    rw [String.data_append] at hmem
    rcases List.mem_append.mp hmem with h | h
    · exact hd h
    · simp at h
  constructor
  · rw [rewriteUrl, if_pos hne, jsReplace, plainReplaceFirst]
    cases hm : firstMatch url.data
        (s3Host bucket region ++ "/" ++ bucketRoot).data with
    | none => rfl
    | some i =>
      dsimp only
      rw [getSubstitution_no_dollar _ _ _ _ hd2]
  · intro hm
    rw [rewriteUrl, if_pos hne, jsReplace, hm]

/-- C5, witness for the amended theorem: a matching URL with domain
`cdn.example.com`, and the unmodified-URL conjunct. -/
theorem C5_rewrite_amended_witness :
    (rewriteUrl "https://b.s3.r.amazonaws.com/artifacts/f.txt" "b" "r"
        "artifacts/" "cdn.example.com" =
      plainReplaceFirst "https://b.s3.r.amazonaws.com/artifacts/f.txt"
        (s3Host "b" "r" ++ "/" ++ "artifacts/") ("cdn.example.com" ++ "/")) ∧
    (firstMatch "https://b.s3.r.amazonaws.com/artifacts/f.txt".data
        (s3Host "b" "r" ++ "/" ++ "artifacts/").data = none →
      rewriteUrl "https://b.s3.r.amazonaws.com/artifacts/f.txt" "b" "r"
        "artifacts/" "cdn.example.com" =
        "https://b.s3.r.amazonaws.com/artifacts/f.txt") :=
  C5_rewrite_amended "https://b.s3.r.amazonaws.com/artifacts/f.txt" "b" "r"
    "artifacts/" "cdn.example.com" (by decide) (by decide)

/-! ### Claim C6 — public URL example -/

/-- C6: for a public file with bucket `b`, region `r` and derived key
`artifacts/x/y.txt`, the computed URL is
`https://b.s3.r.amazonaws.com/artifacts/x/y.txt`, and alternative public
domain `cdn.example.com` rewrites it to `https://cdn.example.com/x/y.txt`. -/
theorem C6_public_url_example :
    publicFileUrl "b" "r" "artifacts/x/y.txt" =
      "https://b.s3.r.amazonaws.com/artifacts/x/y.txt" ∧
    rewriteUrl "https://b.s3.r.amazonaws.com/artifacts/x/y.txt" "b" "r"
      "artifacts/" "cdn.example.com" = "https://cdn.example.com/x/y.txt" := by
  refine ⟨by decide, by decide⟩

/-! ### Claim C9 — bucket-root normalization of "/" -/

/-- C9: the input `"/"` normalizes to the empty bucket root (the object key
gets no root prefix), while the `"artifacts/"` default applies only to the
originally empty input. -/
theorem C9_bucket_root_slash :
    normalizeBucketRoot "/" = "" ∧
    normalizeBucketRoot "" = "artifacts/" ∧
    ∀ destDir fileName : String,
      normalizeBucketRoot "/" ++ destDir ++ fileName = destDir ++ fileName
    := by
  refine ⟨by decide, by decide, ?_⟩
  intro d f
  cases d
  cases f
  rfl

/-! ### Claim C2 — temporary QR file cleanup -/

/-- Concrete input for C2: valid configuration, public file, QR output on. -/
def inputC2 : Input :=
  { awsBucket := "b"
    awsRegion := "r"
    filePath := "f.txt"
    destinationDir := "d"
    bucketRoot := "a"
    outputFileUrl := "false"
    contentType := ""
    contentDisposition := ""
    outputQrUrl := "true"
    qrWidth := "120"
    publicFlag := "true"
    expire := "0"
    alternativeDomainPublic := ""
    alternativeDomainPrivate := ""
    tags := ""
    checksumAlgorithm := ""
    checksum := "" }

/-- Environment for C2 in which the QR upload fails. -/
def envC2fail : Env :=
  { fileBody := "x", randStr := "R", qrPutErr := some "AccessDenied" }

/-- Environment for C2 in which every call succeeds. -/
def envC2ok : Env := { fileBody := "x", randStr := "R" }

/-- C2, counterexample: a run that reaches the QR step (the QR image file is
written) and whose QR upload fails ends with the temporary file still on
disk — `fs.unlinkSync` runs only after a successful QR `putObject`. -/
theorem C2_counterexample :
    ((run inputC2 envC2fail).trace.any fun eff =>
      match eff with
      | Effect.qrToFile _ _ _ => true
      | _ => false) = true ∧
    (run inputC2 envC2fail).result = Except.error "AccessDenied" ∧
    (run inputC2 envC2fail).tmpExists = true := by
  refine ⟨by decide, rfl, by decide⟩

/-- C2, amended: in every run in which the QR step is reached, the temporary
QR file no longer exists after the run when the QR upload succeeds (it is
deleted by `unlink`); when the QR upload fails after the image was written,
the temporary file remains on disk. -/
theorem C2_qr_cleanup_amended (input : Input) (env : Env)
    (bucketRoot destinationDir : String) (qrWidth : Int) (fileUrl : String)
    (trace : List Effect) :
    (env.qrToFileErr = none → env.qrPutErr = none →
      (qrStep input env bucketRoot destinationDir qrWidth fileUrl
        trace).tmpExists = false ∧
      Effect.unlink tmpQrFile ∈
        (qrStep input env bucketRoot destinationDir qrWidth fileUrl
          trace).trace ∧
      (qrStep input env bucketRoot destinationDir qrWidth fileUrl
        trace).result = Except.ok ()) ∧
    (env.qrToFileErr = none → env.qrPutErr ≠ none →
      (qrStep input env bucketRoot destinationDir qrWidth fileUrl
        trace).tmpExists = true) := by
  constructor
  · intro h1 h2
    unfold qrStep
    rw [h1, h2]
    simp
  · intro h1 h2
    unfold qrStep
    rw [h1]
    cases hp : env.qrPutErr with
    | none => exact absurd hp h2
    | some m => simp

/-- C2, witness: the amended theorem applied to the concrete environments in
which the QR upload succeeds and fails. -/
theorem C2_qr_cleanup_amended_witness :
    ((qrStep inputC2 envC2ok "a/" "d/" 120 "u" []).tmpExists = false ∧
      Effect.unlink tmpQrFile ∈
        (qrStep inputC2 envC2ok "a/" "d/" 120 "u" []).trace ∧
      (qrStep inputC2 envC2ok "a/" "d/" 120 "u" []).result = Except.ok ()) ∧
    (qrStep inputC2 envC2fail "a/" "d/" 120 "u" []).tmpExists = true := by
  constructor
  · exact (C2_qr_cleanup_amended inputC2 envC2ok "a/" "d/" 120 "u" []).1
      rfl rfl
  · exact (C2_qr_cleanup_amended inputC2 envC2fail "a/" "d/" 120 "u" []).2
      rfl (by simp [envC2fail])

/-! ### Claim C4 — validation before any network call -/

/-- C4: for every input whose `expire` does not parse as an integer in
`[0, 604800]`, whose `qr-width` does not parse as a non-zero integer in
`[100, 1000]`, or whose non-empty `checksum-algorithm` is unsupported, the
run fails with the corresponding validation error and its effect trace is
empty — no upload and no network call at all. -/
theorem C4_validation_before_network (input : Input) (env : Env)
    (h : expireOk input.expire = false ∨ qrWidthOk input.qrWidth = false ∨
      checksumAlgOk input.checksumAlgorithm = false) :
    (run input env).trace = [] ∧
    ((run input env).result = Except.error expireErrMsg ∨
     (run input env).result = Except.error qrWidthErrMsg ∨
     (run input env).result = Except.error
       ("Unsupported checksum algorithm: " ++ input.checksumAlgorithm)) := by
  by_cases hE : expireOk input.expire = false
  · rw [run_expire_invalid input env hE]
    exact ⟨rfl, Or.inl rfl⟩
  · rw [Bool.not_eq_false] at hE
    by_cases hW : qrWidthOk input.qrWidth = false
    · rw [run_qrwidth_invalid input env hE hW]
      exact ⟨rfl, Or.inr (Or.inl rfl)⟩
    · rw [Bool.not_eq_false] at hW
      have hC : checksumAlgOk input.checksumAlgorithm = false := by
        rcases h with h | h | h
        · rw [h] at hE; exact absurd hE (by simp)
        · rw [h] at hW; exact absurd hW (by simp)
        · exact h
      rw [run_checksum_invalid input env hE hW hC]
      exact ⟨rfl, Or.inr (Or.inr rfl)⟩

/-- Concrete input for the C4 witness: `expire` is `"-1"`. -/
def inputC4 : Input := { inputC2 with expire := "-1" }

/-- C4, witness: the out-of-range expiry `"-1"` yields an empty trace and a
validation error. -/
theorem C4_validation_before_network_witness :
    (run inputC4 envC2ok).trace = [] ∧
    ((run inputC4 envC2ok).result = Except.error expireErrMsg ∨
     (run inputC4 envC2ok).result = Except.error qrWidthErrMsg ∨
     (run inputC4 envC2ok).result = Except.error
       ("Unsupported checksum algorithm: " ++ inputC4.checksumAlgorithm)) :=
  C4_validation_before_network inputC4 envC2ok (Or.inl (by decide))

/-! ### Claim C7 — QR upload parameters -/

/-- C7: in every run that reaches the QR step (valid configuration,
successful main upload and URL resolution, QR output enabled, QR image
written), the QR image is uploaded at key
`<bucketRoot><destinationDir>qr.png` with ACL `public-read` and content type
`image/png` — for any value of the `public` flag. -/
theorem C7_qr_upload_params (input : Input) (env : Env) (e w : Int)
    (hpe : jsParseInt input.expire = some e) (he : ¬(e < 0 ∨ 604800 < e))
    (hpw : jsParseInt input.qrWidth = some w)
    (hw : ¬(w = 0 ∨ w < 100 ∨ 1000 < w))
    (halg : checksumAlgOk input.checksumAlgorithm = true)
    (hmain : env.mainPutErr = none)
    (hsign : input.publicFlag = "true" ∨ env.signErr = none)
    (hqr : input.outputQrUrl = "true")
    (hfile : env.qrToFileErr = none) :
    Effect.putObject {
      Bucket := input.awsBucket
      Key := normalizeBucketRoot input.bucketRoot ++
        normalizeDestinationDir input.destinationDir env.randStr ++ "qr.png"
      ContentType := "image/png"
      Body := env.qrBody
      ACL := "public-read" } ∈ (run input env).trace := by
  obtain ⟨P, hP⟩ := buildParams_ok_of_algOk input
    (normalizeBucketRoot input.bucketRoot ++
      normalizeDestinationDir input.destinationDir env.randStr ++
      jsBasename input.filePath)
    (if input.publicFlag = "true" then "public-read" else "private")
    env.fileBody halg
  unfold run
  rw [hpe]
  dsimp only
  rw [if_neg he, hpw]
  dsimp only
  rw [if_neg hw, hP]
  dsimp only
  rw [hmain]
  dsimp only
  rw [if_pos (Or.inr hqr)]
  by_cases hpub : input.publicFlag = "true"
  · have hres : resolveFileUrl input env (normalizeBucketRoot input.bucketRoot)
        (normalizeBucketRoot input.bucketRoot ++
          normalizeDestinationDir input.destinationDir env.randStr ++
          jsBasename input.filePath) e =
        (Except.ok (rewriteUrl (publicFileUrl input.awsBucket input.awsRegion
          (normalizeBucketRoot input.bucketRoot ++
            normalizeDestinationDir input.destinationDir env.randStr ++
            jsBasename input.filePath)) input.awsBucket input.awsRegion
          (normalizeBucketRoot input.bucketRoot)
          input.alternativeDomainPublic), []) := by
      unfold resolveFileUrl
      rw [if_pos hpub]
    rw [hres]
    dsimp only
    rw [if_pos hqr]
    exact qrStep_put_mem input env _ _ w _ _ hfile
  · have hs : env.signErr = none := by
      rcases hsign with h | h
      · exact absurd h hpub
      · exact h
    have hres : resolveFileUrl input env (normalizeBucketRoot input.bucketRoot)
        (normalizeBucketRoot input.bucketRoot ++
          normalizeDestinationDir input.destinationDir env.randStr ++
          jsBasename input.filePath) e =
        (Except.ok (rewriteUrl env.signedUrl input.awsBucket input.awsRegion
          (normalizeBucketRoot input.bucketRoot)
          input.alternativeDomainPrivate),
         [Effect.signUrl input.awsBucket
           (normalizeBucketRoot input.bucketRoot ++
             normalizeDestinationDir input.destinationDir env.randStr ++
             jsBasename input.filePath) e]) := by
      unfold resolveFileUrl
      rw [if_neg hpub, hs]
    rw [hres]
    dsimp only
    rw [if_pos hqr]
    exact qrStep_put_mem input env _ _ w _ _ hfile

/-- Concrete input for the C7 witness: a private file with QR output on. -/
def inputC7 : Input := { inputC2 with
  publicFlag := "false"
  outputFileUrl := "true" }

/-- Environment for the C7 witness. -/
def envC7 : Env :=
  { fileBody := "x"
    randStr := "R"
    signedUrl := "https://b.s3.r.amazonaws.com/a/d/f.txt?sig=1"
    qrBody := "png-bytes" }

/-- C7, witness: a concrete private-file run whose trace contains the QR
upload with the derived key, `public-read` ACL and `image/png` type. -/
theorem C7_qr_upload_params_witness :
    Effect.putObject {
      Bucket := inputC7.awsBucket
      Key := normalizeBucketRoot inputC7.bucketRoot ++
        normalizeDestinationDir inputC7.destinationDir envC7.randStr ++
        "qr.png"
      ContentType := "image/png"
      Body := envC7.qrBody
      ACL := "public-read" } ∈ (run inputC7 envC7).trace :=
  C7_qr_upload_params inputC7 envC7 0 120 (by decide) (by decide)
    (by decide) (by decide) (by decide) rfl (Or.inr rfl) rfl rfl

/-! ### Claim C8 — checksum value conversion and attachment -/

/-- C8: for every supplied (non-empty) checksum value with a supported
algorithm, the upload parameters attach the converted value under the field
matching the algorithm and leave every other checksum field empty, where
the conversion re-encodes a pure-hex value as base64 of its hex bytes and
passes any other value through unchanged. -/
theorem C8_checksum_conversion (input : Input) (fileKey acl body : String)
    (p : PutParams)
    (halg : input.checksumAlgorithm ∈ checksumAlgorithms)
    (hv : input.checksum ≠ "")
    (hp : buildParams input fileKey acl body = Except.ok p) :
    checksumFieldValue input.checksumAlgorithm p =
      some (convertChecksum input.checksum) ∧
    (∀ alg ∈ checksumAlgorithms, alg ≠ input.checksumAlgorithm →
      checksumFieldValue alg p = none) ∧
    (isHexTest input.checksum = true →
      convertChecksum input.checksum =
        String.mk (base64Encode (hexToBytes input.checksum.data))) ∧
    (isHexTest input.checksum = false →
      convertChecksum input.checksum = input.checksum) := by
  simp only [checksumAlgorithms, List.mem_cons, List.not_mem_nil, or_false]
    at halg
  rcases halg with h | h | h | h | h <;>
  · simp [buildParams, h, hv, checksumAlgorithms] at hp
    subst hp
    refine ⟨by simp [checksumFieldValue, attachChecksum, h], ?_, ?_, ?_⟩
    · intro alg halg2 hne2
      simp only [checksumAlgorithms, List.mem_cons, List.not_mem_nil,
        or_false] at halg2
      rw [h] at hne2
      rcases halg2 with h2 | h2 | h2 | h2 | h2 <;>
        simp [h2, h, checksumFieldValue, attachChecksum] <;> simp_all
    · intro hhex
      rw [convertChecksum, if_pos hhex]
    · intro hhex
      rw [convertChecksum, if_neg (by simp [hhex])]

/-- Concrete input for the C8 witness: algorithm `SHA256`, hex value
`deadbeef`. -/
def inputC8 : Input := { inputC2 with
  checksumAlgorithm := "SHA256"
  checksum := "deadbeef" }

/-- The upload parameters `buildParams` produces for `inputC8`. -/
def paramsC8 : PutParams :=
  { Bucket := "b"
    Key := "k"
    ContentType := ""
    ContentDisposition := some "inline"
    Body := "x"
    ACL := "private"
    ChecksumAlgorithm := some "SHA256"
    ChecksumSHA256 := some (convertChecksum "deadbeef") }

/-- C8, witness: the hex value `"deadbeef"` is attached as its base64
re-encoding `"3q2+7w=="` under `ChecksumSHA256`. -/
theorem C8_checksum_conversion_witness :
    (checksumFieldValue inputC8.checksumAlgorithm paramsC8 =
      some (convertChecksum inputC8.checksum) ∧
    (∀ alg ∈ checksumAlgorithms, alg ≠ inputC8.checksumAlgorithm →
      checksumFieldValue alg paramsC8 = none) ∧
    (isHexTest inputC8.checksum = true →
      convertChecksum inputC8.checksum =
        String.mk (base64Encode (hexToBytes inputC8.checksum.data))) ∧
    (isHexTest inputC8.checksum = false →
      convertChecksum inputC8.checksum = inputC8.checksum)) ∧
    convertChecksum "deadbeef" = "3q2+7w==" := by
  refine ⟨C8_checksum_conversion inputC8 "k" "private" "x" paramsC8
    (by decide) (by decide) rfl, by decide⟩

/-! ### Claim C10 — empty checksum-algorithm ignores the checksum value -/

/-- C10: for every input with empty `checksum-algorithm`, parameter
construction succeeds with no checksum algorithm field and no checksum
value field, whatever the supplied `checksum` value is — the value is
silently ignored and never validated. -/
theorem C10_no_checksum_when_alg_empty (input : Input)
    (fileKey acl body : String) (h : input.checksumAlgorithm = "") :
    ∃ p, buildParams input fileKey acl body = Except.ok p ∧
      p.ChecksumAlgorithm = none ∧ p.ChecksumCRC32 = none ∧
      p.ChecksumCRC32C = none ∧ p.ChecksumCRC64NVME = none ∧
      p.ChecksumSHA1 = none ∧ p.ChecksumSHA256 = none := by
  have heq : buildParams input fileKey acl body = Except.ok {
      Bucket := input.awsBucket
      Key := fileKey
      ContentType := input.contentType
      ContentDisposition :=
        some (if input.contentDisposition ≠ "" then input.contentDisposition
              else "inline")
      Body := body
      ACL := acl
      Tagging := (if input.tags ≠ "" then some (parseTags input.tags)
        else none).map serializeTags } := by
    simp [buildParams, h]
  exact ⟨_, heq, rfl, rfl, rfl, rfl, rfl, rfl⟩

/-- Concrete input for the C10 witness: empty algorithm with a garbage
checksum value. -/
def inputC10 : Input := { inputC2 with checksum := "*not even base64*" }

/-- C10, witness: the garbage checksum value is ignored — no checksum field
is attached and no error is raised. -/
theorem C10_no_checksum_when_alg_empty_witness :
    ∃ p, buildParams inputC10 "k" "private" "x" = Except.ok p ∧
      p.ChecksumAlgorithm = none ∧ p.ChecksumCRC32 = none ∧
      p.ChecksumCRC32C = none ∧ p.ChecksumCRC64NVME = none ∧
      p.ChecksumSHA1 = none ∧ p.ChecksumSHA256 = none :=
  C10_no_checksum_when_alg_empty inputC10 "k" "private" "x" rfl
